import Mathlib

/-!
Verification of the inventory-reservation and checkout-settlement core of the
Merchant API backend.

The relational store is embedded as lists of rows (one list per table), and
each handler of interest is embedded as a pure state transformer over that
store.  Machine-level details that no claim observes (encrypted PII columns,
price formatting, currencies, timestamps other than expiries) are elided;
every control-flow branch of the embedded functions follows the TypeScript
source.

Library semantics that the source relies on and that the embedding makes
explicit:
* drizzle-orm's tx.rollback() has signature rollback(): never and throws a
  TransactionRollbackError; db.transaction executes a ROLLBACK and re-throws
  that error.  Consequently the statement after tx.rollback() in reserveStock
  (returning the declined-result object) is unreachable, which the embedding
  records with the TxOutcome.rolledBackThrown constructor.
* A SQL UPDATE ... WHERE applies to exactly the rows satisfying the WHERE
  clause and reports, via .returning(), whether any row matched.
* INSERT INTO payments raises a unique-violation error instead of inserting
  when a row with the same stripe_checkout_session_id or
  stripe_payment_intent_id exists (unique indexes payments_checkout_session_idx
  and payments_payment_intent_idx of the schema); the raised error aborts the
  rest of the handler and reaches the error middleware.
* Fresh row ids (uuid defaultRandom) are modelled by a monotone counter
  nextId in the store state.
-/

abbrev VariantId := Nat
abbrev CartId := Nat
abbrev SessionId := Nat
abbrev OrderId := Nat
abbrev ReservationId := Nat

/-- A row of the inventory table: stock per sellable unit (variant_id is
unique in the table). -/
structure InvRow where
  variant_id : VariantId
  stock_quantity : Int
deriving DecidableEq, Repr

/-- A row of the reservations table. -/
structure Reservation where
  id : ReservationId
  cart_id : CartId
  variant_id : VariantId
  quantity : Int
  expires_at : Nat
deriving DecidableEq, Repr

inductive CartStatus
| active
| ordered
| abandoned
deriving DecidableEq, Repr

inductive OrderStatus
| pending
| paid
| failed
| cancelled
| returned
| refunded
deriving DecidableEq, Repr

inductive PaymentStatus
| initiated
| succeeded
deriving DecidableEq, Repr

/-- A row of the carts table. -/
structure Cart where
  id : CartId
  session_id : SessionId
  status : CartStatus
  expires_at : Nat
deriving DecidableEq, Repr

/-- A row of the cart_items table. -/
structure CartItem where
  cart_id : CartId
  product_id : Nat
  variant_id : VariantId
  quantity : Int
deriving DecidableEq, Repr

/-- A row of the variants table (only the field the settlement handler
reads through the relational join is kept). -/
structure Variant where
  id : VariantId
  price : Int
deriving DecidableEq, Repr

/-- A row of the orders table (encrypted PII and total columns are opaque to
every claim and elided). -/
structure Order where
  id : OrderId
  cart_id : CartId
  stripe_checkout_session_id : Option SessionId
  stripe_payment_intent_id : Option Nat
  status : OrderStatus
deriving DecidableEq, Repr

/-- A row of the order_items table. -/
structure OrderItem where
  order_id : OrderId
  product_id : Nat
  variant_id : VariantId
  quantity : Int
  unit_price : Int
deriving DecidableEq, Repr

/-- A row of the payments table. -/
structure Payment where
  order_id : OrderId
  status : PaymentStatus
  stripe_checkout_session_id : SessionId
  stripe_payment_intent_id : Nat
deriving DecidableEq, Repr

/-- The relational store. -/
structure DBState where
  variants : List Variant
  inventory : List InvRow
  reservations : List Reservation
  carts : List Cart
  cartItems : List CartItem
  orders : List Order
  orderItems : List OrderItem
  payments : List Payment
  nextId : Nat
deriving DecidableEq, Repr

/-- The stock item shape passed to reserveStock (variant_id and quantity of a
cart line item). -/
structure StockItem where
  variant_id : VariantId
  quantity : Int
deriving DecidableEq, Repr

/-- UPDATE inventory SET stock_quantity = stock_quantity - q
    WHERE variant_id = v AND stock_quantity >= q
(the single conditional decrement statement inside reserveStock). -/
def decWhereAvailable (inv : List InvRow) (v : VariantId) (q : Int) : List InvRow :=
  inv.map fun r =>
    if r.variant_id = v ∧ q ≤ r.stock_quantity then
      { r with stock_quantity := r.stock_quantity - q }
    else r

/-- UPDATE inventory SET stock_quantity = stock_quantity + q WHERE variant_id = v
(used by restoreStockFromReservations, reservation cancellation, and positive
adjust). -/
def incrementStock (inv : List InvRow) (v : VariantId) (q : Int) : List InvRow :=
  inv.map fun r =>
    if r.variant_id = v then { r with stock_quantity := r.stock_quantity + q }
    else r

/-- Sequential increments, one per reservation row (the loop body of
restoreStockFromReservations). -/
def incAll (rs : List Reservation) (inv : List InvRow) : List InvRow :=
  rs.foldl (fun acc r => incrementStock acc r.variant_id r.quantity) inv

/-- The for-loop body of reserveStock, run inside one transaction: decrement
with availability guard, then insert one reservation row, per item.  On a
guard failure it stops and reports the failing variant; the partial state it
returns in that case is the uncommitted transaction state. -/
def reserveStockLoop (s : DBState) (cartId : CartId) (items : List StockItem)
    (expiresAt : Nat) : DBState × Option VariantId :=
  match items with
  | [] => (s, none)
  | item :: rest =>
    if ∃ r ∈ s.inventory, r.variant_id = item.variant_id ∧ item.quantity ≤ r.stock_quantity then
      reserveStockLoop
        { s with
          inventory := decWhereAvailable s.inventory item.variant_id item.quantity,
          reservations := s.reservations ++
            [{ id := s.nextId, cart_id := cartId, variant_id := item.variant_id,
               quantity := item.quantity, expires_at := expiresAt }],
          nextId := s.nextId + 1 }
        cartId rest expiresAt
    else
      (s, some item.variant_id)

/-- The declined-result value type declared in the source
(ReserveResult = success or declined with failed_variant_id). -/
inductive ReserveResult
| success
| declined (failed_variant_id : VariantId)
deriving DecidableEq, Repr

/-- What a caller of a db.transaction actually observes: a returned value, or
a TransactionRollbackError propagating after the transaction was rolled
back. -/
inductive TxOutcome (α : Type)
| value (val : α)
| rolledBackThrown
deriving DecidableEq, Repr

/-- reserveStock from lib/inventory.  On a guard failure the source calls
tx.rollback(), which in drizzle-orm throws TransactionRollbackError; the
transaction is rolled back (the store reverts to the entry state) and the
error is re-thrown, so the source line returning the declined result never
executes. -/
def reserveStock (s : DBState) (cartId : CartId) (items : List StockItem)
    (expiresAt : Nat) : DBState × TxOutcome ReserveResult :=
  match reserveStockLoop s cartId items expiresAt with
  | (s1, none) => (s1, .value .success)
  | (_, some _) => (s, .rolledBackThrown)

/-- restoreStockFromReservations from lib/inventory: select the cart's
reservation rows, return immediately when there are none, otherwise restore
stock per row and delete the rows in one transaction. -/
def restoreStockFromReservations (s : DBState) (cartId : CartId) : DBState :=
  if (s.reservations.filter fun r => decide (r.cart_id = cartId)).length = 0 then s
  else
    { s with
      inventory := incAll (s.reservations.filter fun r => decide (r.cart_id = cartId))
        s.inventory,
      reservations := s.reservations.filter fun r => decide (¬ r.cart_id = cartId) }

/-- clearReservations from lib/inventory: delete the cart's reservation rows
without touching stock. -/
def clearReservations (s : DBState) (cartId : CartId) : DBState :=
  { s with reservations := s.reservations.filter fun r => decide (¬ r.cart_id = cartId) }

/-- DELETE /reservations handler: look up the reservation; if absent report
not-found, otherwise restore its quantity to stock and delete the row in one
transaction.  The boolean reports whether a reservation was cancelled. -/
def cancelReservationHandler (s : DBState) (rid : ReservationId) : DBState × Bool :=
  match s.reservations.find? (fun r => decide (r.id = rid)) with
  | none => (s, false)
  | some r =>
    ({ s with
        inventory := incrementStock s.inventory r.variant_id r.quantity,
        reservations := s.reservations.filter fun x => decide (¬ x.id = rid) },
      true)

/-- Request body of PATCH /inventory: an absolute stock_quantity or a signed
adjust (the zod schema enforces stock_quantity >= 0 upstream of the
handler). -/
structure UpdateInventoryBody where
  stock_quantity : Option Int
  adjust : Option Int
deriving DecidableEq, Repr

inductive UpdateInventoryResult
| ok
| notFoundErr
| insufficientStockErr
| missingFieldErr
deriving DecidableEq, Repr

/-- PATCH /inventory handler: existence check, then absolute set, else signed
adjust; a negative adjust is applied through a single conditional update
guarded by stock_quantity >= |adjust| and reported as a BadRequest when no
row matches. -/
def updateInventory (s : DBState) (vid : VariantId) (body : UpdateInventoryBody) :
    DBState × UpdateInventoryResult :=
  match s.inventory.find? (fun r => decide (r.variant_id = vid)) with
  | none => (s, .notFoundErr)
  | some _ =>
    match body.stock_quantity with
    | some q =>
      ({ s with inventory := s.inventory.map fun r =>
          if r.variant_id = vid then { r with stock_quantity := q } else r },
        .ok)
    | none =>
      match body.adjust with
      | some d =>
        if d < 0 then
          if ∃ r ∈ s.inventory, r.variant_id = vid ∧ -d ≤ r.stock_quantity then
            ({ s with inventory := s.inventory.map fun r =>
                if r.variant_id = vid ∧ -d ≤ r.stock_quantity then
                  { r with stock_quantity := r.stock_quantity + d }
                else r },
              .ok)
          else (s, .insufficientStockErr)
        else
          ({ s with inventory := incrementStock s.inventory vid d }, .ok)
      | none => (s, .missingFieldErr)

/-- The checkout-session object carried by a Stripe webhook event: session
id, the cart_id carried in metadata (absent when the metadata lacks it), and
the payment intent. -/
structure StripeSession where
  id : SessionId
  cart_id : Option CartId
  payment_intent : Option Nat
deriving DecidableEq, Repr

/-- Error kinds the settlement handlers record in the per-request event bag
before returning early. -/
inductive EventErr
| badRequestMissingCartMeta
| notFoundOrder
| notFoundCart
deriving DecidableEq, Repr

/-- How a settlement handler finished: ran to completion, returned early
after recording an event error, crashed (TypeError reading a missing
variant relation, impossible while the cart_items foreign key holds), or
aborted on the payments unique-violation error raised by a duplicate
payment insert.  The last two propagate to the error middleware. -/
inductive HandlerOutcome
| completedOk
| earlyReturn (err : EventErr)
| crashedVariantJoinMissing
| raisedPaymentUniqueViolation
deriving DecidableEq, Repr

/-- findFirst on orders by stripe_checkout_session_id. -/
def findOrderBySession (s : DBState) (sid : SessionId) : Option Order :=
  s.orders.find? fun o => decide (o.stripe_checkout_session_id = some sid)

/-- The cart's line items (the items relation of the cart query). -/
def cartItemsOf (s : DBState) (cid : CartId) : List CartItem :=
  s.cartItems.filter fun i => decide (i.cart_id = cid)

/-- findFirst on variants by id (the variant relation of a cart item). -/
def findVariant (s : DBState) (vid : VariantId) : Option Variant :=
  s.variants.find? fun v => decide (v.id = vid)

/-- Step of handleCheckoutCompleted: UPDATE orders SET status = paid,
stripe_payment_intent_id = ... WHERE id = oid (the PII and total columns the
same statement writes are opaque to every claim and elided). -/
def markOrderPaid (s : DBState) (oid : OrderId) (pi : Option Nat) : DBState :=
  { s with orders := s.orders.map fun o =>
      if o.id = oid then { o with status := .paid, stripe_payment_intent_id := pi }
      else o }

/-- Step of handleCheckoutCompleted: the order-item rows built from the
cart's items, reading the unit price through the variant relation. -/
def orderItemsFromCart (s : DBState) (oid : OrderId) (items : List CartItem) :
    List OrderItem :=
  items.map fun i =>
    { order_id := oid, product_id := i.product_id, variant_id := i.variant_id,
      quantity := i.quantity,
      unit_price := ((findVariant s i.variant_id).map Variant.price).getD 0 }

/-- Step of handleCheckoutCompleted: INSERT INTO order_items. -/
def insertOrderItems (s : DBState) (newItems : List OrderItem) : DBState :=
  { s with orderItems := s.orderItems ++ newItems }

/-- Step of handleCheckoutCompleted: INSERT INTO payments, executed only
when the session carries a payment intent.  The payments table carries
unique indexes on stripe_checkout_session_id and stripe_payment_intent_id
(payments_checkout_session_idx, payments_payment_intent_idx), so the insert
raises a unique-violation error instead of inserting when a payment row for
the same session id or payment intent already exists; the boolean records
whether the statement raised. -/
def insertPaymentIfIntent (s : DBState) (oid : OrderId) (sid : SessionId)
    (pi : Option Nat) : DBState × Bool :=
  match pi with
  | some p =>
    if ∃ x ∈ s.payments, x.stripe_checkout_session_id = sid ∨
        x.stripe_payment_intent_id = p then
      (s, true)
    else
      ({ s with payments := s.payments ++
          [{ order_id := oid, status := .succeeded,
             stripe_checkout_session_id := sid, stripe_payment_intent_id := p }] },
        false)
  | none => (s, false)

/-- handleCheckoutCompleted from the webhook route: guard on metadata
cart_id, look up the order by session id, look up the cart, update the order
to paid, insert order items built from the cart items, insert a payment row
when a payment intent is present, and clear the cart's reservations.  There
is no check that the order is still pending.  When a cart item's variant
relation is missing (impossible under the foreign key) the source crashes
after the order update, which the else branch records.  The handler runs
outside any transaction, so when the payment insert raises the
unique-violation error, the order update and the (possibly duplicated)
order-item inserts already executed persist and clearReservations is never
reached. -/
def handleCheckoutCompleted (s : DBState) (session : StripeSession) :
    DBState × HandlerOutcome :=
  match session.cart_id with
  | none => (s, .earlyReturn .badRequestMissingCartMeta)
  | some cid =>
    match findOrderBySession s session.id with
    | none => (s, .earlyReturn .notFoundOrder)
    | some order =>
      match s.carts.find? (fun c => decide (c.id = cid)) with
      | none => (s, .earlyReturn .notFoundCart)
      | some _ =>
        if ∀ i ∈ cartItemsOf s cid, (findVariant s i.variant_id).isSome = true then
          match insertPaymentIfIntent
            (insertOrderItems (markOrderPaid s order.id session.payment_intent)
              (orderItemsFromCart s order.id (cartItemsOf s cid)))
            order.id session.id session.payment_intent with
          | (s3, true) => (s3, .raisedPaymentUniqueViolation)
          | (s3, false) => (clearReservations s3 cid, .completedOk)
        else (markOrderPaid s order.id session.payment_intent, .crashedVariantJoinMissing)

/-- Step of handleCheckoutExpired: when an order matches the session id,
UPDATE orders SET status = failed WHERE id = order.id; otherwise leave the
store unchanged. -/
def markOrderFailed (s : DBState) (sid : SessionId) : DBState :=
  match findOrderBySession s sid with
  | some order =>
    { s with orders := s.orders.map fun o =>
        if o.id = order.id then { o with status := .failed } else o }
  | none => s

/-- Step of handleCheckoutExpired: UPDATE carts SET status = abandoned
WHERE id = cid. -/
def markCartAbandoned (s : DBState) (cid : CartId) : DBState :=
  { s with carts := s.carts.map fun c =>
      if c.id = cid then { c with status := .abandoned } else c }

/-- handleCheckoutExpired from the webhook route: guard on metadata cart_id,
set the order (when one matches the session id) to failed, always restore
stock from the cart's reservations and mark the cart abandoned. -/
def handleCheckoutExpired (s : DBState) (session : StripeSession) :
    DBState × HandlerOutcome :=
  match session.cart_id with
  | none => (s, .earlyReturn .badRequestMissingCartMeta)
  | some cid =>
    (markCartAbandoned
      (restoreStockFromReservations (markOrderFailed s session.id) cid) cid,
      .completedOk)

/-- The webhook event kinds the route dispatches on. -/
inductive StripeEventKind
| checkoutSessionCompleted (session : StripeSession)
| checkoutSessionExpired (session : StripeSession)
| otherEvent
deriving DecidableEq, Repr

/-- A webhook request after transport: whether the signature header was
present, whether the webhook secret is configured, whether signature
verification succeeds, and the decoded event. -/
structure WebhookRequest where
  signaturePresent : Bool
  secretConfigured : Bool
  signatureValid : Bool
  eventKind : StripeEventKind
deriving DecidableEq, Repr

inductive WebhookResponse
| okReceived
| badRequest
| serverError
deriving DecidableEq, Repr

/-- POST / webhook handler: signature checks, dispatch on the event type
(unknown types are recorded as unhandled and ignored), then 200 with
received set to true.  An exception escaping a settlement handler reaches
the error middleware and surfaces as a generic 500. -/
def webhookPost (s : DBState) (req : WebhookRequest) : DBState × WebhookResponse :=
  if req.signaturePresent = false then (s, .badRequest)
  else if req.secretConfigured = false then (s, .serverError)
  else if req.signatureValid = false then (s, .badRequest)
  else
    match req.eventKind with
    | .checkoutSessionCompleted sess =>
      match handleCheckoutCompleted s sess with
      | (s1, .crashedVariantJoinMissing) => (s1, .serverError)
      | (s1, .raisedPaymentUniqueViolation) => (s1, .serverError)
      | (s1, _) => (s1, .okReceived)
    | .checkoutSessionExpired sess =>
      match handleCheckoutExpired s sess with
      | (s1, _) => (s1, .okReceived)
    | .otherEvent => (s, .okReceived)

/-- No payments row conflicts with the event's session on the table's
unique indexes — the precondition under which a completed-session event's
payment insert does not raise.  It holds in particular on every first
delivery of the event. -/
def NoPaymentConflict (s : DBState) (ev : StripeEventKind) : Prop :=
  match ev with
  | .checkoutSessionCompleted sess =>
    match sess.payment_intent with
    | some p => ∀ x ∈ s.payments,
        ¬ x.stripe_checkout_session_id = sess.id ∧ ¬ x.stripe_payment_intent_id = p
    | none => True
  | _ => True

instance (s : DBState) : (ev : StripeEventKind) → Decidable (NoPaymentConflict s ev)
  | .checkoutSessionCompleted sess =>
    match hpi : sess.payment_intent with
    | some p =>
      decidable_of_iff (∀ x ∈ s.payments,
        ¬ x.stripe_checkout_session_id = sess.id ∧ ¬ x.stripe_payment_intent_id = p)
        (by unfold NoPaymentConflict; dsimp only; rw [hpi])
    | none => decidable_of_iff True (by unfold NoPaymentConflict; dsimp only; rw [hpi])
  | .checkoutSessionExpired sess => inferInstanceAs (Decidable True)
  | .otherEvent => inferInstanceAs (Decidable True)

/-- The behavior of the external stripe.checkout.sessions.create call as
observed by the checkout route: it raises, or returns a session without a
redirect url, or returns a session with one. -/
inductive StripeCreateBehavior
| raisesError
| returnsNoUrl (sid : SessionId)
| returnsUrl (sid : SessionId)
deriving DecidableEq, Repr

/-- A POST /checkout request: the X-Session-ID header, the current time, and
the behavior of the external session-creation call. -/
structure CheckoutRequest where
  sessionHeader : Option SessionId
  now : Nat
  stripe : StripeCreateBehavior
deriving DecidableEq, Repr

inductive CheckoutResponse
| okRedirect (sid : SessionId)
| unauthorizedMissingHeader
| badRequestCartEmpty
| badRequestCartExpired
| badRequestAlreadyCheckedOut
| badRequestInsufficientStock (shortfall : List VariantId)
| badRequestStockChanged (vid : VariantId)
| appErrorSessionCreateFailed
| appErrorNoCheckoutUrl
| internalErrorRolledBack
deriving DecidableEq, Repr

/-- UPDATE carts SET expires_at = now() + interval 30 minutes (the expiry
refresh at checkout start). -/
def refreshCartExpiry (s : DBState) (cid : CartId) (now : Nat) : DBState :=
  { s with carts := s.carts.map fun c =>
      if c.id = cid then { c with expires_at := now + 30 * 60 } else c }

/-- inventoryMap.get(variant_id) ?? 0 of the read-only pre-check. -/
def stockLookup (inv : List InvRow) (vid : VariantId) : Int :=
  match inv.find? (fun r => decide (r.variant_id = vid)) with
  | some r => r.stock_quantity
  | none => 0

/-- The cart items as the stock-item list handed to reserveStock. -/
def toStockItems (items : List CartItem) : List StockItem :=
  items.map fun i => { variant_id := i.variant_id, quantity := i.quantity }

/-- POST /checkout handler: validate header/cart/expiry, refresh the cart
expiry, check status, run the read-only stock pre-check, reserve atomically,
call the external session creation (releasing the reservation on a raise or
a missing url), then mark the cart ordered and insert a pending order.  A
TransactionRollbackError escaping reserveStock reaches the error middleware
as a generic 500; the declined-result branch is kept as in the source even
though reserveStock can no longer produce it. -/
def checkoutHandler (s : DBState) (req : CheckoutRequest) : DBState × CheckoutResponse :=
  match req.sessionHeader with
  | none => (s, .unauthorizedMissingHeader)
  | some sh =>
    match s.carts.find? (fun c => decide (c.session_id = sh)) with
    | none => (s, .badRequestCartEmpty)
    | some cart =>
      if (cartItemsOf s cart.id).length = 0 then (s, .badRequestCartEmpty)
      else if cart.expires_at < req.now then (s, .badRequestCartExpired)
      else if ¬ cart.status = .active then
        (refreshCartExpiry s cart.id req.now, .badRequestAlreadyCheckedOut)
      else if ¬ ((cartItemsOf s cart.id).filter fun i =>
          decide (stockLookup (refreshCartExpiry s cart.id req.now).inventory
            i.variant_id < i.quantity)).length = 0 then
        (refreshCartExpiry s cart.id req.now,
          .badRequestInsufficientStock
            (((cartItemsOf s cart.id).filter fun i =>
              decide (stockLookup (refreshCartExpiry s cart.id req.now).inventory
                i.variant_id < i.quantity)).map CartItem.variant_id))
      else
        match reserveStock (refreshCartExpiry s cart.id req.now) cart.id
          (toStockItems (cartItemsOf s cart.id)) (req.now + 30 * 60) with
        | (s2, .rolledBackThrown) => (s2, .internalErrorRolledBack)
        | (s2, .value (.declined v)) => (s2, .badRequestStockChanged v)
        | (s2, .value .success) =>
          match req.stripe with
          | .raisesError =>
            (restoreStockFromReservations s2 cart.id, .appErrorSessionCreateFailed)
          | .returnsNoUrl _ =>
            (restoreStockFromReservations s2 cart.id, .appErrorNoCheckoutUrl)
          | .returnsUrl sid =>
            ({ s2 with
                carts := s2.carts.map fun c =>
                  if c.id = cart.id then { c with status := .ordered } else c,
                orders := s2.orders ++
                  [{ id := s2.nextId, cart_id := cart.id,
                     stripe_checkout_session_id := some sid,
                     stripe_payment_intent_id := none, status := .pending }],
                nextId := s2.nextId + 1 },
              .okRedirect sid)

/-- The stock-mutating operations of the system, as invoked by the routes
and the settlement handlers. -/
inductive StockOp
| reserveOp (cartId : CartId) (items : List StockItem) (expiresAt : Nat)
| restoreOp (cartId : CartId)
| clearOp (cartId : CartId)
| cancelOp (rid : ReservationId)
| adjustOp (vid : VariantId) (delta : Int)
| setAbsoluteOp (vid : VariantId) (q : Int)
deriving DecidableEq, Repr

/-- Apply one stock-mutating operation to the store (result states of the
corresponding source operations). -/
def applyStockOp (s : DBState) (op : StockOp) : DBState :=
  match op with
  | .reserveOp cid items exp => (reserveStock s cid items exp).1
  | .restoreOp cid => restoreStockFromReservations s cid
  | .clearOp cid => clearReservations s cid
  | .cancelOp rid => (cancelReservationHandler s rid).1
  | .adjustOp vid d => (updateInventory s vid { stock_quantity := none, adjust := some d }).1
  | .setAbsoluteOp vid q => (updateInventory s vid { stock_quantity := some q, adjust := none }).1

/-- The input validation the routes perform upstream of each operation:
reserveStock is called with positive cart-item quantities, and the absolute
set's schema enforces a non-negative quantity. -/
def StockOpWF : StockOp → Prop
  | .reserveOp _ items _ => ∀ i ∈ items, 0 < i.quantity
  | .setAbsoluteOp _ q => 0 ≤ q
  | _ => True

instance : (op : StockOp) → Decidable (StockOpWF op)
  | .reserveOp _ items _ => inferInstanceAs (Decidable (∀ i ∈ items, 0 < i.quantity))
  | .restoreOp _ => inferInstanceAs (Decidable True)
  | .clearOp _ => inferInstanceAs (Decidable True)
  | .cancelOp _ => inferInstanceAs (Decidable True)
  | .adjustOp _ _ => inferInstanceAs (Decidable True)
  | .setAbsoluteOp _ q => inferInstanceAs (Decidable (0 ≤ q))

/-- The ledger invariant: no unit's stock is negative, and every reservation
row holds a positive quantity. -/
def StockNonneg (s : DBState) : Prop :=
  (∀ r ∈ s.inventory, 0 ≤ r.stock_quantity) ∧ ∀ r ∈ s.reservations, 0 < r.quantity

instance (s : DBState) : Decidable (StockNonneg s) :=
  inferInstanceAs (Decidable ((∀ r ∈ s.inventory, 0 ≤ r.stock_quantity) ∧
    ∀ r ∈ s.reservations, 0 < r.quantity))

/-- The reservation rows reserveStock inserts for an item list, with the
shared expiry, starting from fresh id n. -/
def mkReservationRows (cid : CartId) (items : List StockItem) (exp : Nat) (n : Nat) :
    List Reservation :=
  match items with
  | [] => []
  | it :: rest =>
    { id := n, cart_id := cid, variant_id := it.variant_id,
      quantity := it.quantity, expires_at := exp } :: mkReservationRows cid rest exp (n + 1)

/-- Total quantity an item list requests for one variant. -/
def requestedQty (items : List StockItem) (vid : VariantId) : Int :=
  ((items.filter fun i => decide (i.variant_id = vid)).map StockItem.quantity).sum

/-! ### Generic lemmas about the inventory-row updates -/

theorem map_update_variantIds (inv : List InvRow) (f : InvRow → InvRow)
    (hid : ∀ r, (f r).variant_id = r.variant_id) :
    (inv.map f).map InvRow.variant_id = inv.map InvRow.variant_id := by
  rw [List.map_map]
  exact List.map_congr_left fun a _ => hid a

theorem find?_variant_map (inv : List InvRow) (vid : VariantId) (f : InvRow → InvRow)
    (hid : ∀ r, (f r).variant_id = r.variant_id) :
    (inv.map f).find? (fun r => decide (r.variant_id = vid)) =
      (inv.find? (fun r => decide (r.variant_id = vid))).map f := by
  induction inv with
  | nil => rfl
  | cons a l ih =>
    by_cases hv : a.variant_id = vid
    · simp [List.find?_cons, hid, hv]
    · simp [List.find?_cons, hid, hv, ih]

theorem nonneg_map_update (inv : List InvRow) (f : InvRow → InvRow)
    (h : ∀ r ∈ inv, 0 ≤ r.stock_quantity)
    (hf : ∀ r ∈ inv, 0 ≤ r.stock_quantity → 0 ≤ (f r).stock_quantity) :
    ∀ r ∈ inv.map f, 0 ≤ r.stock_quantity := by
  intro r hr
  rcases List.mem_map.1 hr with ⟨a, ha, rfl⟩
  exact hf a ha (h a ha)

theorem decWhereAvailable_variantIds (inv : List InvRow) (v : VariantId) (q : Int) :
    (decWhereAvailable inv v q).map InvRow.variant_id = inv.map InvRow.variant_id := by
  unfold decWhereAvailable
  exact map_update_variantIds _ _ fun r => by split <;> rfl

theorem incrementStock_variantIds (inv : List InvRow) (v : VariantId) (q : Int) :
    (incrementStock inv v q).map InvRow.variant_id = inv.map InvRow.variant_id := by
  unfold incrementStock
  exact map_update_variantIds _ _ fun r => by split <;> rfl

theorem decWhereAvailable_nonneg (inv : List InvRow) (v : VariantId) (q : Int)
    (h : ∀ r ∈ inv, 0 ≤ r.stock_quantity) :
    ∀ r ∈ decWhereAvailable inv v q, 0 ≤ r.stock_quantity := by
  unfold decWhereAvailable
  apply nonneg_map_update _ _ h
  intro r _ hr
  split
  · next hg => exact sub_nonneg.2 hg.2
  · exact hr

theorem incrementStock_nonneg (inv : List InvRow) (v : VariantId) (q : Int)
    (hq : 0 ≤ q) (h : ∀ r ∈ inv, 0 ≤ r.stock_quantity) :
    ∀ r ∈ incrementStock inv v q, 0 ≤ r.stock_quantity := by
  unfold incrementStock
  apply nonneg_map_update _ _ h
  intro r _ hr
  split
  · exact add_nonneg hr hq
  · exact hr

theorem incAll_nil (inv : List InvRow) : incAll [] inv = inv := rfl

theorem incAll_cons (a : Reservation) (rs : List Reservation) (inv : List InvRow) :
    incAll (a :: rs) inv = incAll rs (incrementStock inv a.variant_id a.quantity) := rfl

theorem incAll_nonneg (rs : List Reservation) (inv : List InvRow)
    (hrs : ∀ r ∈ rs, 0 ≤ r.quantity) (h : ∀ r ∈ inv, 0 ≤ r.stock_quantity) :
    ∀ r ∈ incAll rs inv, 0 ≤ r.stock_quantity := by
  induction rs generalizing inv with
  | nil => exact h
  | cons a l ih =>
    rw [incAll_cons]
    exact ih _ (fun r hr => hrs r (List.mem_cons_of_mem _ hr))
      (incrementStock_nonneg _ _ _ (hrs a (List.mem_cons_self _ _)) h)

theorem incrementStock_comm (inv : List InvRow) (v1 : VariantId) (q1 : Int)
    (v2 : VariantId) (q2 : Int) :
    incrementStock (incrementStock inv v1 q1) v2 q2 =
      incrementStock (incrementStock inv v2 q2) v1 q1 := by
  unfold incrementStock
  rw [List.map_map, List.map_map]
  apply List.map_congr_left
  intro r _
  by_cases h1 : r.variant_id = v1 <;> by_cases h2 : r.variant_id = v2
  · have h12 : v1 = v2 := by rw [← h1, ← h2]
    subst h12
    simp [Function.comp, h1, add_right_comm]
  · have h12 : ¬ v1 = v2 := fun e => h2 (h1.trans e)
    simp [Function.comp, h1, h2, h12]
  · have h12 : ¬ v2 = v1 := fun e => h1 (h2.trans e)
    simp [Function.comp, h1, h2, h12]
  · simp [Function.comp, h1, h2]

theorem incAll_incrementStock (rs : List Reservation) (inv : List InvRow)
    (v : VariantId) (q : Int) :
    incAll rs (incrementStock inv v q) = incrementStock (incAll rs inv) v q := by
  induction rs generalizing inv with
  | nil => rfl
  | cons a l ih =>
    rw [incAll_cons, incAll_cons, incrementStock_comm inv v q a.variant_id a.quantity]
    exact ih _

theorem incrementStock_decWhereAvailable (inv : List InvRow) (v : VariantId) (q : Int)
    (hN : (inv.map InvRow.variant_id).Nodup)
    (hex : ∃ r ∈ inv, r.variant_id = v ∧ q ≤ r.stock_quantity) :
    incrementStock (decWhereAvailable inv v q) v q = inv := by
  rcases hex with ⟨r0, hr0, hr0v, hr0q⟩
  unfold incrementStock decWhereAvailable
  rw [List.map_map]
  have hcongr : ∀ a ∈ inv,
      ((fun r => if r.variant_id = v then { r with stock_quantity := r.stock_quantity + q } else r) ∘
        (fun r => if r.variant_id = v ∧ q ≤ r.stock_quantity then
          { r with stock_quantity := r.stock_quantity - q } else r)) a = id a := by
    intro a ha
    by_cases hv : a.variant_id = v
    · have haq : q ≤ a.stock_quantity := by
        have heq : a = r0 := List.inj_on_of_nodup_map hN ha hr0 (hv.trans hr0v.symm)
        rw [heq]
        exact hr0q
      simp [Function.comp, hv, haq, sub_add_cancel]
      rw [← hv]
    · simp [Function.comp, hv]
  rw [List.map_congr_left hcongr, List.map_id]

/-! ### stockLookup and requestedQty -/

theorem stockLookup_decWhereAvailable (inv : List InvRow) (v : VariantId) (q : Int)
    (hN : (inv.map InvRow.variant_id).Nodup)
    (hex : ∃ r ∈ inv, r.variant_id = v ∧ q ≤ r.stock_quantity) (vid : VariantId) :
    stockLookup (decWhereAvailable inv v q) vid =
      stockLookup inv vid - (if v = vid then q else 0) := by
  have hid : ∀ r : InvRow,
      ((if r.variant_id = v ∧ q ≤ r.stock_quantity then
        { r with stock_quantity := r.stock_quantity - q } else r) : InvRow).variant_id =
        r.variant_id := by
    intro r
    split <;> rfl
  unfold stockLookup decWhereAvailable
  rw [find?_variant_map inv vid _ hid]
  by_cases hvv : v = vid
  · subst hvv
    rcases hex with ⟨r0, hr0, hr0v, hr0q⟩
    cases hf : inv.find? (fun r => decide (r.variant_id = v)) with
    | none =>
      have hcontra := List.find?_eq_none.1 hf r0 hr0
      rw [hr0v] at hcontra
      simp at hcontra
    | some r =>
      have hmem := List.mem_of_find?_eq_some hf
      have hpv : r.variant_id = v := by simpa using List.find?_some hf
      have hrr0 : r = r0 := List.inj_on_of_nodup_map hN hmem hr0 (hpv.trans hr0v.symm)
      have hq : q ≤ r.stock_quantity := by rw [hrr0]; exact hr0q
      simp [hpv, hq]
  · cases hf : inv.find? (fun r => decide (r.variant_id = vid)) with
    | none => simp [hvv]
    | some r =>
      have hpv : r.variant_id = vid := by simpa using List.find?_some hf
      have hng : ¬ (r.variant_id = v ∧ q ≤ r.stock_quantity) := by
        intro hc
        exact hvv (hc.1 ▸ hpv)
      simp [hng, hvv]

theorem requestedQty_nil (vid : VariantId) : requestedQty [] vid = 0 := rfl

theorem requestedQty_cons (it : StockItem) (rest : List StockItem) (vid : VariantId) :
    requestedQty (it :: rest) vid =
      (if it.variant_id = vid then it.quantity else 0) + requestedQty rest vid := by
  unfold requestedQty
  rw [List.filter_cons]
  by_cases hv : it.variant_id = vid <;> simp [hv]

/-! ### mkReservationRows -/

theorem mkReservationRows_mem (cid : CartId) (items : List StockItem) (exp : Nat) (n : Nat) :
    ∀ r ∈ mkReservationRows cid items exp n, r.cart_id = cid ∧ r.expires_at = exp := by
  induction items generalizing n with
  | nil => intro r hr; cases hr
  | cons it rest ih =>
    intro r hr
    rcases List.mem_cons.1 hr with h | h
    · rw [h]; exact ⟨rfl, rfl⟩
    · exact ih _ r h

theorem mkReservationRows_length (cid : CartId) (items : List StockItem) (exp : Nat) (n : Nat) :
    (mkReservationRows cid items exp n).length = items.length := by
  induction items generalizing n with
  | nil => rfl
  | cons it rest ih => simp [mkReservationRows, ih]

/-! ### reserveStockLoop -/

theorem reserveStockLoop_frame (items : List StockItem) (s : DBState) (cid : CartId)
    (exp : Nat) :
    (reserveStockLoop s cid items exp).1.variants = s.variants ∧
    (reserveStockLoop s cid items exp).1.carts = s.carts ∧
    (reserveStockLoop s cid items exp).1.cartItems = s.cartItems ∧
    (reserveStockLoop s cid items exp).1.orders = s.orders ∧
    (reserveStockLoop s cid items exp).1.orderItems = s.orderItems ∧
    (reserveStockLoop s cid items exp).1.payments = s.payments := by
  induction items generalizing s with
  | nil => exact ⟨rfl, rfl, rfl, rfl, rfl, rfl⟩
  | cons it rest ih =>
    unfold reserveStockLoop
    split
    · exact ih _
    · exact ⟨rfl, rfl, rfl, rfl, rfl, rfl⟩

theorem reserveStockLoop_variantIds (items : List StockItem) (s : DBState) (cid : CartId)
    (exp : Nat) :
    (reserveStockLoop s cid items exp).1.inventory.map InvRow.variant_id =
      s.inventory.map InvRow.variant_id := by
  induction items generalizing s with
  | nil => rfl
  | cons it rest ih =>
    unfold reserveStockLoop
    split
    · exact (ih _).trans (decWhereAvailable_variantIds _ _ _)
    · rfl

theorem reserveStockLoop_success_rows (items : List StockItem) (s s' : DBState)
    (cid : CartId) (exp : Nat)
    (h : reserveStockLoop s cid items exp = (s', none)) :
    s'.reservations = s.reservations ++ mkReservationRows cid items exp s.nextId ∧
    s'.nextId = s.nextId + items.length := by
  induction items generalizing s with
  | nil =>
    unfold reserveStockLoop at h
    injection h with h1 _
    subst h1
    simp [mkReservationRows]
  | cons it rest ih =>
    unfold reserveStockLoop at h
    split at h
    · rcases ih _ h with ⟨h1, h2⟩
      constructor
      · rw [h1]
        simp [mkReservationRows, List.append_assoc]
      · rw [h2]
        simp [List.length_cons]
        omega
    · simp at h

theorem reserveStockLoop_success_cancel (items : List StockItem) (s s' : DBState)
    (cid : CartId) (exp : Nat)
    (hN : (s.inventory.map InvRow.variant_id).Nodup)
    (h : reserveStockLoop s cid items exp = (s', none)) :
    incAll (mkReservationRows cid items exp s.nextId) s'.inventory = s.inventory := by
  induction items generalizing s with
  | nil =>
    unfold reserveStockLoop at h
    injection h with h1 _
    subst h1
    rfl
  | cons it rest ih =>
    unfold reserveStockLoop at h
    split at h
    · next hg =>
      have hN2 : ((decWhereAvailable s.inventory it.variant_id it.quantity).map
          InvRow.variant_id).Nodup := by
        rw [decWhereAvailable_variantIds]
        exact hN
      have hIH := ih _ hN2 h
      rw [mkReservationRows, incAll_cons, incAll_incrementStock]
      rw [show ((⟨s.nextId, cid, it.variant_id, it.quantity, exp⟩ : Reservation).variant_id) =
        it.variant_id from rfl]
      rw [show ((⟨s.nextId, cid, it.variant_id, it.quantity, exp⟩ : Reservation).quantity) =
        it.quantity from rfl]
      rw [hIH]
      exact incrementStock_decWhereAvailable _ _ _ hN hg
    · simp at h

theorem reserveStockLoop_success_stock (items : List StockItem) (s s' : DBState)
    (cid : CartId) (exp : Nat)
    (hN : (s.inventory.map InvRow.variant_id).Nodup)
    (h : reserveStockLoop s cid items exp = (s', none)) :
    ∀ vid, stockLookup s'.inventory vid = stockLookup s.inventory vid - requestedQty items vid := by
  induction items generalizing s with
  | nil =>
    unfold reserveStockLoop at h
    injection h with h1 _
    subst h1
    intro vid
    simp [requestedQty_nil]
  | cons it rest ih =>
    unfold reserveStockLoop at h
    split at h
    · next hg =>
      intro vid
      have hN2 : ((decWhereAvailable s.inventory it.variant_id it.quantity).map
          InvRow.variant_id).Nodup := by
        rw [decWhereAvailable_variantIds]
        exact hN
      have hstep := ih _ hN2 h vid
      rw [hstep]
      rw [show ({ s with
          inventory := decWhereAvailable s.inventory it.variant_id it.quantity,
          reservations := s.reservations ++
            [{ id := s.nextId, cart_id := cid, variant_id := it.variant_id,
               quantity := it.quantity, expires_at := exp }],
          nextId := s.nextId + 1 } : DBState).inventory =
        decWhereAvailable s.inventory it.variant_id it.quantity from rfl]
      rw [stockLookup_decWhereAvailable s.inventory it.variant_id it.quantity hN hg vid]
      rw [requestedQty_cons, sub_sub]
    · simp at h

theorem reserveStockLoop_nonneg (items : List StockItem) (s : DBState) (cid : CartId)
    (exp : Nat) (hitems : ∀ i ∈ items, 0 < i.quantity) (hs : StockNonneg s) :
    StockNonneg (reserveStockLoop s cid items exp).1 := by
  induction items generalizing s with
  | nil => exact hs
  | cons it rest ih =>
    unfold reserveStockLoop
    split
    · apply ih _ (fun i hi => hitems i (List.mem_cons_of_mem _ hi))
      constructor
      · exact decWhereAvailable_nonneg _ _ _ hs.1
      · intro r hr
        rcases List.mem_append.1 hr with h | h
        · exact hs.2 r h
        · rcases List.mem_singleton.1 h with rfl
          exact hitems it (List.mem_cons_self _ _)
    · exact hs

/-! ### restoreStockFromReservations -/

theorem restoreStock_spec (s : DBState) (cid : CartId) :
    (restoreStockFromReservations s cid).inventory =
      incAll (s.reservations.filter fun r => decide (r.cart_id = cid)) s.inventory ∧
    ((restoreStockFromReservations s cid).reservations.filter
      fun r => decide (r.cart_id = cid)) = [] ∧
    (restoreStockFromReservations s cid).variants = s.variants ∧
    (restoreStockFromReservations s cid).carts = s.carts ∧
    (restoreStockFromReservations s cid).cartItems = s.cartItems ∧
    (restoreStockFromReservations s cid).orders = s.orders ∧
    (restoreStockFromReservations s cid).orderItems = s.orderItems ∧
    (restoreStockFromReservations s cid).payments = s.payments := by
  unfold restoreStockFromReservations
  split
  · next hlen =>
    have hnil : (s.reservations.filter fun r => decide (r.cart_id = cid)) = [] :=
      List.length_eq_zero.1 hlen
    rw [hnil]
    exact ⟨rfl, rfl, rfl, rfl, rfl, rfl, rfl, rfl⟩
  · refine ⟨rfl, ?_, rfl, rfl, rfl, rfl, rfl, rfl⟩
    rw [List.filter_filter]
    apply List.filter_eq_nil_iff.2
    intro a _
    by_cases h : a.cart_id = cid <;> simp [h]

/-- After a successful reserveStock on a cart with no prior reservation
rows, restoreStockFromReservations undoes exactly the decrements of the
attempt and deletes exactly the inserted rows. -/
theorem reserveStock_success_restore (s s2 : DBState) (cid : CartId)
    (items : List StockItem) (exp : Nat)
    (hN : (s.inventory.map InvRow.variant_id).Nodup)
    (hNoRes : ∀ r ∈ s.reservations, ¬ r.cart_id = cid)
    (h : reserveStock s cid items exp = (s2, .value .success)) :
    (restoreStockFromReservations s2 cid).inventory = s.inventory ∧
    (restoreStockFromReservations s2 cid).reservations = s.reservations := by
  have hloop : reserveStockLoop s cid items exp = (s2, none) := by
    unfold reserveStock at h
    rcases hL : reserveStockLoop s cid items exp with ⟨sx, o⟩
    cases o with
    | none =>
      rw [hL] at h
      injection h with h1 _
      rw [← h1]
    | some v =>
      rw [hL] at h
      simp at h
  have hrows := (reserveStockLoop_success_rows items s s2 cid exp hloop).1
  have hcancel := reserveStockLoop_success_cancel items s s2 cid exp hN hloop
  have holdnil : (s.reservations.filter fun r => decide (r.cart_id = cid)) = [] :=
    List.filter_eq_nil_iff.2 fun a ha => by simp [hNoRes a ha]
  have hmkself : ((mkReservationRows cid items exp s.nextId).filter
      fun r => decide (r.cart_id = cid)) = mkReservationRows cid items exp s.nextId :=
    List.filter_eq_self.2 fun a ha => by
      simp [(mkReservationRows_mem cid items exp s.nextId a ha).1]
  have hfilter : (s2.reservations.filter fun r => decide (r.cart_id = cid)) =
      mkReservationRows cid items exp s.nextId := by
    rw [hrows, List.filter_append, holdnil, hmkself, List.nil_append]
  unfold restoreStockFromReservations
  rw [hfilter]
  split
  · next hlen =>
    have hmknil : mkReservationRows cid items exp s.nextId = [] :=
      List.length_eq_zero.1 hlen
    constructor
    · rw [← hcancel, hmknil]
      rfl
    · rw [hrows, hmknil, List.append_nil]
  · constructor
    · exact hcancel
    · rw [hrows, List.filter_append]
      have h1 : (s.reservations.filter fun r => decide (¬ r.cart_id = cid)) =
          s.reservations :=
        List.filter_eq_self.2 fun a ha => by simp [hNoRes a ha]
      have h2 : ((mkReservationRows cid items exp s.nextId).filter
          fun r => decide (¬ r.cart_id = cid)) = [] :=
        List.filter_eq_nil_iff.2 fun a ha => by
          simp [(mkReservationRows_mem cid items exp s.nextId a ha).1]
      rw [h1, h2, List.append_nil]

/-! ### Preservation of the ledger invariant by each stock operation -/

theorem applyStockOp_nonneg (s : DBState) (op : StockOp)
    (hwf : StockOpWF op) (hs : StockNonneg s) : StockNonneg (applyStockOp s op) := by
  cases op with
  | reserveOp cid items exp =>
    show StockNonneg (reserveStock s cid items exp).1
    have hloop := reserveStockLoop_nonneg items s cid exp hwf hs
    rcases hL : reserveStockLoop s cid items exp with ⟨sx, o⟩
    rw [hL] at hloop
    unfold reserveStock
    rw [hL]
    cases o with
    | none => exact hloop
    | some v => exact hs
  | restoreOp cid =>
    show StockNonneg (restoreStockFromReservations s cid)
    unfold restoreStockFromReservations
    split
    · exact hs
    · constructor
      · exact incAll_nonneg _ _
          (fun r hr => le_of_lt (hs.2 r (List.mem_of_mem_filter hr))) hs.1
      · intro r hr
        exact hs.2 r (List.mem_of_mem_filter hr)
  | clearOp cid =>
    exact ⟨hs.1, fun r hr => hs.2 r (List.mem_of_mem_filter hr)⟩
  | cancelOp rid =>
    show StockNonneg (cancelReservationHandler s rid).1
    unfold cancelReservationHandler
    cases hf : s.reservations.find? (fun r => decide (r.id = rid)) with
    | none => exact hs
    | some r =>
      constructor
      · exact incrementStock_nonneg _ _ _
          (le_of_lt (hs.2 r (List.mem_of_find?_eq_some hf))) hs.1
      · intro x hx
        exact hs.2 x (List.mem_of_mem_filter hx)
  | adjustOp vid d =>
    show StockNonneg (updateInventory s vid { stock_quantity := none, adjust := some d }).1
    unfold updateInventory
    cases hf : s.inventory.find? (fun r => decide (r.variant_id = vid)) with
    | none => exact hs
    | some r =>
      dsimp only
      split
      · next hd =>
        split
        · next hg =>
          constructor
          · apply nonneg_map_update _ _ hs.1
            intro x _ hx
            split
            · next hgx =>
              have hxd := hgx.2
              show 0 ≤ x.stock_quantity + d
              omega
            · exact hx
          · exact hs.2
        · exact hs
      · next hd =>
        constructor
        · exact incrementStock_nonneg _ _ _ (by omega) hs.1
        · exact hs.2
  | setAbsoluteOp vid q =>
    show StockNonneg (updateInventory s vid { stock_quantity := some q, adjust := none }).1
    unfold updateInventory
    cases hf : s.inventory.find? (fun r => decide (r.variant_id = vid)) with
    | none => exact hs
    | some r =>
      dsimp only
      constructor
      · apply nonneg_map_update _ _ hs.1
        intro x _ hx
        split
        · exact hwf
        · exact hx
      · exact hs.2

/-! ### Settlement-handler step lemmas -/

theorem restoreStock_noop (u : DBState) (cid : CartId)
    (h : (u.reservations.filter fun r => decide (r.cart_id = cid)) = []) :
    restoreStockFromReservations u cid = u := by
  unfold restoreStockFromReservations
  rw [h]
  rfl

theorem markOrderFailed_frame (s : DBState) (sid : SessionId) :
    (markOrderFailed s sid).inventory = s.inventory ∧
    (markOrderFailed s sid).reservations = s.reservations ∧
    (markOrderFailed s sid).carts = s.carts := by
  unfold markOrderFailed
  cases findOrderBySession s sid <;> exact ⟨rfl, rfl, rfl⟩

theorem markOrderFailed_status (s : DBState) (sid : SessionId)
    (hU : ∀ o1 ∈ s.orders, ∀ o2 ∈ s.orders, ∀ x : SessionId,
      o1.stripe_checkout_session_id = some x → o2.stripe_checkout_session_id = some x →
      o1.id = o2.id) :
    ∀ o ∈ (markOrderFailed s sid).orders,
      o.stripe_checkout_session_id = some sid → o.status = OrderStatus.failed := by
  unfold markOrderFailed
  cases hf : findOrderBySession s sid with
  | none =>
    intro o ho hsess
    unfold findOrderBySession at hf
    have := List.find?_eq_none.1 hf o ho
    rw [hsess] at this
    simp at this
  | some o0 =>
    unfold findOrderBySession at hf
    have ho0mem := List.mem_of_find?_eq_some hf
    have ho0sess : o0.stripe_checkout_session_id = some sid := by
      simpa using List.find?_some hf
    intro o ho hsess
    rcases List.mem_map.1 ho with ⟨a, ha, rfl⟩
    by_cases hid : a.id = o0.id
    · simp [hid]
    · rw [if_neg hid] at hsess ⊢
      exact absurd (hU a ha o0 ho0mem sid hsess ho0sess) hid

theorem markCartAbandoned_frame (s : DBState) (cid : CartId) :
    (markCartAbandoned s cid).inventory = s.inventory ∧
    (markCartAbandoned s cid).reservations = s.reservations ∧
    (markCartAbandoned s cid).orders = s.orders := ⟨rfl, rfl, rfl⟩

theorem markCartAbandoned_status (s : DBState) (cid : CartId) :
    ∀ c ∈ (markCartAbandoned s cid).carts, c.id = cid → c.status = CartStatus.abandoned := by
  intro c hc hcid2
  rcases List.mem_map.1 hc with ⟨a, ha, rfl⟩
  by_cases h : a.id = cid
  · simp [h]
  · rw [if_neg h] at hcid2 ⊢
    exact absurd hcid2 h

theorem handleCheckoutCompleted_no_crash (s : DBState) (sess : StripeSession)
    (hfk : ∀ i ∈ s.cartItems, (findVariant s i.variant_id).isSome = true) :
    ¬ (handleCheckoutCompleted s sess).2 = HandlerOutcome.crashedVariantJoinMissing := by
  unfold handleCheckoutCompleted
  cases hc : sess.cart_id with
  | none => simp
  | some cid =>
    dsimp only
    cases ho : findOrderBySession s sess.id with
    | none => simp
    | some order =>
      dsimp only
      cases hcart : s.carts.find? (fun c => decide (c.id = cid)) with
      | none => simp
      | some c =>
        dsimp only
        have hall : ∀ i ∈ cartItemsOf s cid, (findVariant s i.variant_id).isSome = true :=
          fun i hi => hfk i (List.mem_of_mem_filter hi)
        rw [if_pos hall]
        cases hins : insertPaymentIfIntent
            (insertOrderItems (markOrderPaid s order.id sess.payment_intent)
              (orderItemsFromCart s order.id (cartItemsOf s cid)))
            order.id sess.id sess.payment_intent with
        | mk s3 b => cases b <;> simp

theorem handleCheckoutCompleted_no_unique_violation (s : DBState) (sess : StripeSession)
    (hnp : NoPaymentConflict s (StripeEventKind.checkoutSessionCompleted sess)) :
    ¬ (handleCheckoutCompleted s sess).2 = HandlerOutcome.raisedPaymentUniqueViolation := by
  unfold handleCheckoutCompleted
  cases hc : sess.cart_id with
  | none => simp
  | some cid =>
    dsimp only
    cases ho : findOrderBySession s sess.id with
    | none => simp
    | some order =>
      dsimp only
      cases hcart : s.carts.find? (fun c => decide (c.id = cid)) with
      | none => simp
      | some c =>
        dsimp only
        by_cases hall : ∀ i ∈ cartItemsOf s cid, (findVariant s i.variant_id).isSome = true
        · rw [if_pos hall]
          unfold NoPaymentConflict at hnp
          dsimp only at hnp
          unfold insertPaymentIfIntent
          cases hpi : sess.payment_intent with
          | none => simp
          | some p =>
            rw [hpi] at hnp
            dsimp only at hnp
            dsimp only
            have hng : ¬ ∃ x ∈ (insertOrderItems
                (markOrderPaid s order.id (some p))
                (orderItemsFromCart s order.id (cartItemsOf s cid))).payments,
                x.stripe_checkout_session_id = sess.id ∨
                x.stripe_payment_intent_id = p := by
              rintro ⟨x, hx, hor⟩
              have hx2 : x ∈ s.payments := hx
              rcases hor with h1 | h2
              · exact (hnp x hx2).1 h1
              · exact (hnp x hx2).2 h2
            rw [if_neg hng]
            simp
        · rw [if_neg hall]
          simp

/-! ### Claim theorems -/

/-- Store for the duplicate-delivery scenario: one variant (price 10, stock
5), one cart (id 0) holding 2 units of it, a pending order (id 0)
correlated to checkout session 500, and one reservation row. -/
def c1State : DBState :=
  { variants := [{ id := 1, price := 10 }],
    inventory := [{ variant_id := 1, stock_quantity := 5 }],
    reservations := [{ id := 0, cart_id := 0, variant_id := 1, quantity := 2, expires_at := 99 }],
    carts := [{ id := 0, session_id := 100, status := .ordered, expires_at := 99 }],
    cartItems := [{ cart_id := 0, product_id := 7, variant_id := 1, quantity := 2 }],
    orders := [{ id := 0, cart_id := 0, stripe_checkout_session_id := some 500,
                 stripe_payment_intent_id := none, status := .pending }],
    orderItems := [], payments := [], nextId := 1 }

/-- The completed-checkout session of the duplicate-delivery scenario. -/
def c1Session : StripeSession :=
  { id := 500, cart_id := some 0, payment_intent := some 900 }

/-- Claim C1: delivering the same completed-checkout notification twice is
claimed to leave the state of a single delivery (one set of order items, one
payment row).  The handler has no already-paid short-circuit, so the second
run re-executes the settlement body: it inserts a second set of order items
(no constraint stops it, and the handler runs outside any transaction), then
the payment insert hits the payments unique index and raises, aborting the
rest of the handler.  After the duplicate run there are 2 order-item rows,
and the final state differs from the single-run state. -/
theorem handleCheckoutCompleted_second_run_duplicates :
    (handleCheckoutCompleted c1State c1Session).2 = HandlerOutcome.completedOk ∧
    (handleCheckoutCompleted c1State c1Session).1.orderItems.length = 1 ∧
    (handleCheckoutCompleted c1State c1Session).1.payments.length = 1 ∧
    (handleCheckoutCompleted (handleCheckoutCompleted c1State c1Session).1 c1Session).2 =
      HandlerOutcome.raisedPaymentUniqueViolation ∧
    (handleCheckoutCompleted (handleCheckoutCompleted c1State c1Session).1
      c1Session).1.orderItems.length = 2 ∧
    ¬ (handleCheckoutCompleted (handleCheckoutCompleted c1State c1Session).1 c1Session).1 =
      (handleCheckoutCompleted c1State c1Session).1 := by decide

/-- Claim C2: starting from any store satisfying the ledger invariant, any
sequence of well-formed stock-mutating operations (guarded reserve
decrements, restore and cancellation increments, signed adjusts, absolute
sets of a non-negative quantity) keeps every stock_quantity non-negative. -/
theorem stock_quantity_never_negative (s : DBState) (ops : List StockOp)
    (hwf : ∀ op ∈ ops, StockOpWF op) (hs : StockNonneg s) :
    StockNonneg (ops.foldl applyStockOp s) := by
  induction ops generalizing s with
  | nil => exact hs
  | cons op rest ih =>
    exact ih _ (fun o ho => hwf o (List.mem_cons_of_mem _ ho))
      (applyStockOp_nonneg s op (hwf op (List.mem_cons_self _ _)) hs)

/-- Store for the C2 witness: one unit with stock 5 and one live reservation
of 2. -/
def c2State : DBState :=
  { variants := [], inventory := [{ variant_id := 1, stock_quantity := 5 }],
    reservations := [{ id := 0, cart_id := 0, variant_id := 1, quantity := 2, expires_at := 50 }],
    carts := [], cartItems := [], orders := [], orderItems := [], payments := [], nextId := 1 }

/-- Operation sequence for the C2 witness: a reserve, a restore, a negative
and an absolute admin update, a cancellation and a clear. -/
def c2Ops : List StockOp :=
  [.reserveOp 0 [{ variant_id := 1, quantity := 3 }] 99, .restoreOp 0,
   .adjustOp 1 (-2), .setAbsoluteOp 1 7, .cancelOp 0, .clearOp 0]

/-- Witness for claim C2 at a concrete store and operation sequence. -/
theorem stock_quantity_never_negative_witness :
    StockNonneg (c2Ops.foldl applyStockOp c2State) :=
  stock_quantity_never_negative c2State c2Ops (by decide) (by decide)

/-- Claim C3: reserveStock is all-or-nothing.  When the per-item loop stops
at a failing availability guard, the transaction aborts and the store is
exactly the entry store (no decrement survives, no reservation row of the
attempt exists).  When every item passes, the call returns the loop's final
store, which extends the reservations with exactly one row per item sharing
the requested expiry, and decrements each unit's stock by exactly the total
quantity the item list requests for it. -/
theorem reserveStock_all_or_nothing (s : DBState) (cid : CartId)
    (items : List StockItem) (exp : Nat)
    (hN : (s.inventory.map InvRow.variant_id).Nodup) :
    (∀ sPartial v, reserveStockLoop s cid items exp = (sPartial, some v) →
      reserveStock s cid items exp = (s, TxOutcome.rolledBackThrown)) ∧
    (∀ s', reserveStockLoop s cid items exp = (s', none) →
      reserveStock s cid items exp = (s', TxOutcome.value ReserveResult.success) ∧
      s'.reservations = s.reservations ++ mkReservationRows cid items exp s.nextId ∧
      (mkReservationRows cid items exp s.nextId).length = items.length ∧
      (∀ r ∈ mkReservationRows cid items exp s.nextId,
        r.expires_at = exp ∧ r.cart_id = cid) ∧
      ∀ vid, stockLookup s'.inventory vid =
        stockLookup s.inventory vid - requestedQty items vid) := by
  constructor
  · intro sPartial v h
    unfold reserveStock
    rw [h]
  · intro s' h
    refine ⟨?_, (reserveStockLoop_success_rows items s s' cid exp h).1,
      mkReservationRows_length cid items exp s.nextId,
      fun r hr => ⟨(mkReservationRows_mem cid items exp s.nextId r hr).2,
        (mkReservationRows_mem cid items exp s.nextId r hr).1⟩,
      reserveStockLoop_success_stock items s s' cid exp hN h⟩
    unfold reserveStock
    rw [h]

/-- Store whose single unit (stock 2) cannot satisfy a request of 3. -/
def c3FailState : DBState :=
  { variants := [], inventory := [{ variant_id := 1, stock_quantity := 2 }],
    reservations := [], carts := [], cartItems := [], orders := [], orderItems := [],
    payments := [], nextId := 0 }

/-- Store whose single unit (stock 5) satisfies a request of 3. -/
def c3OkState : DBState :=
  { variants := [], inventory := [{ variant_id := 1, stock_quantity := 5 }],
    reservations := [], carts := [], cartItems := [], orders := [], orderItems := [],
    payments := [], nextId := 0 }

/-- The store reserveStock produces from c3OkState. -/
def c3OkResult : DBState :=
  { variants := [], inventory := [{ variant_id := 1, stock_quantity := 2 }],
    reservations := [{ id := 0, cart_id := 0, variant_id := 1, quantity := 3, expires_at := 99 }],
    carts := [], cartItems := [], orders := [], orderItems := [], payments := [], nextId := 1 }

/-- Witness for claim C3: a failing and a succeeding reservation attempt at
concrete stores. -/
theorem reserveStock_all_or_nothing_witness :
    reserveStock c3FailState 0 [{ variant_id := 1, quantity := 3 }] 99 =
      (c3FailState, TxOutcome.rolledBackThrown) ∧
    reserveStock c3OkState 0 [{ variant_id := 1, quantity := 3 }] 99 =
      (c3OkResult, TxOutcome.value ReserveResult.success) ∧
    stockLookup c3OkResult.inventory 1 =
      stockLookup c3OkState.inventory 1 -
        requestedQty [{ variant_id := 1, quantity := 3 }] 1 := by
  have hfail := (reserveStock_all_or_nothing c3FailState 0
    [{ variant_id := 1, quantity := 3 }] 99 (by decide)).1 c3FailState 1 (by decide)
  have hok := (reserveStock_all_or_nothing c3OkState 0
    [{ variant_id := 1, quantity := 3 }] 99 (by decide)).2 c3OkResult (by decide)
  exact ⟨hfail, hok.1, hok.2.2.2.2 1⟩

/-- Store for the C4 reservation-conflict input: the unit has stock 2, the
attempt asks for 3. -/
def c4State : DBState :=
  { variants := [], inventory := [{ variant_id := 1, stock_quantity := 2 }],
    reservations := [], carts := [], cartItems := [], orders := [], orderItems := [],
    payments := [], nextId := 0 }

/-- Store in which the read-only checkout pre-check passes but the atomic
reservation fails: the active cart holds two line items of the same unit
(3 each) and stock is 5, so each item alone passes the pre-check while the
second guarded decrement fails. -/
def c4CartState : DBState :=
  { variants := [{ id := 1, price := 10 }],
    inventory := [{ variant_id := 1, stock_quantity := 5 }],
    reservations := [],
    carts := [{ id := 0, session_id := 100, status := .active, expires_at := 1000 }],
    cartItems := [{ cart_id := 0, product_id := 7, variant_id := 1, quantity := 3 },
                  { cart_id := 0, product_id := 8, variant_id := 1, quantity := 3 }],
    orders := [], orderItems := [], payments := [], nextId := 1 }

/-- Checkout request for c4CartState. -/
def c4Req : CheckoutRequest :=
  { sessionHeader := some 100, now := 500, stripe := .returnsUrl 900 }

/-- Claim C4: a failing availability guard is claimed to produce a returned
declined-result value naming the failing unit, which the checkout caller
reports.  Because tx.rollback() throws, reserveStock instead propagates a
TransactionRollbackError (the declined-result return is dead code), and the
checkout caller surfaces the error middleware's generic 500 rather than the
stock-conflict report; the store keeps only the expiry refresh. -/
theorem reserveStock_failure_raises_not_declines :
    reserveStock c4State 0 [{ variant_id := 1, quantity := 3 }] 99 =
      (c4State, TxOutcome.rolledBackThrown) ∧
    (checkoutHandler c4CartState c4Req).2 = CheckoutResponse.internalErrorRolledBack ∧
    (checkoutHandler c4CartState c4Req).1 = refreshCartExpiry c4CartState 0 500 := by
  decide

/-- Claim C5: whenever checkout ends with the session-creation failure error
or the missing-redirect-url error, the reservation taken earlier in the same
request has been released before returning: stock is back to its
pre-reservation values and the cart's reservation rows are gone (the only
surviving effect is the cart-expiry refresh). -/
theorem checkout_compensates_on_session_failure (s : DBState) (req : CheckoutRequest)
    (sh : SessionId) (cart : Cart) (s' : DBState) (resp : CheckoutResponse)
    (hsh : req.sessionHeader = some sh)
    (hcart : s.carts.find? (fun c => decide (c.session_id = sh)) = some cart)
    (hN : (s.inventory.map InvRow.variant_id).Nodup)
    (hNoRes : ∀ r ∈ s.reservations, ¬ r.cart_id = cart.id)
    (hrun : checkoutHandler s req = (s', resp))
    (hfail : resp = CheckoutResponse.appErrorSessionCreateFailed ∨
      resp = CheckoutResponse.appErrorNoCheckoutUrl) :
    s'.inventory = s.inventory ∧ s'.reservations = s.reservations ∧
    (s'.reservations.filter fun r => decide (r.cart_id = cart.id)) = [] := by
  unfold checkoutHandler at hrun
  rw [hsh] at hrun
  dsimp only at hrun
  rw [hcart] at hrun
  dsimp only at hrun
  split at hrun
  · injection hrun with h1 h2
    rcases hfail with rfl | rfl <;> cases h2
  · split at hrun
    · injection hrun with h1 h2
      rcases hfail with rfl | rfl <;> cases h2
    · split at hrun
      · injection hrun with h1 h2
        rcases hfail with rfl | rfl <;> cases h2
      · split at hrun
        · injection hrun with h1 h2
          rcases hfail with rfl | rfl <;> cases h2
        · split at hrun
          · next s2 heq =>
            injection hrun with h1 h2
            rcases hfail with rfl | rfl <;> cases h2
          · next s2 v heq =>
            injection hrun with h1 h2
            rcases hfail with rfl | rfl <;> cases h2
          · next s2 heq =>
            split at hrun
            · injection hrun with h1 h2
              have hres := reserveStock_success_restore
                (refreshCartExpiry s cart.id req.now) s2 cart.id
                (toStockItems (cartItemsOf s cart.id)) (req.now + 30 * 60)
                hN hNoRes heq
              subst h1
              refine ⟨hres.1, hres.2, ?_⟩
              rw [hres.2]
              exact List.filter_eq_nil_iff.2 fun a ha => by simp [hNoRes a ha]
            · injection hrun with h1 h2
              have hres := reserveStock_success_restore
                (refreshCartExpiry s cart.id req.now) s2 cart.id
                (toStockItems (cartItemsOf s cart.id)) (req.now + 30 * 60)
                hN hNoRes heq
              subst h1
              refine ⟨hres.1, hres.2, ?_⟩
              rw [hres.2]
              exact List.filter_eq_nil_iff.2 fun a ha => by simp [hNoRes a ha]
            · injection hrun with h1 h2
              rcases hfail with rfl | rfl <;> cases h2

/-- Store for the C5 witness: one unit with stock 5 and an active cart
holding 2 of it, with no pre-existing reservations. -/
def c5State : DBState :=
  { variants := [{ id := 1, price := 10 }],
    inventory := [{ variant_id := 1, stock_quantity := 5 }],
    reservations := [],
    carts := [{ id := 0, session_id := 100, status := .active, expires_at := 1000 }],
    cartItems := [{ cart_id := 0, product_id := 7, variant_id := 1, quantity := 2 }],
    orders := [], orderItems := [], payments := [], nextId := 0 }

/-- Checkout request for the C5 witness whose remote session creation
raises. -/
def c5Req : CheckoutRequest :=
  { sessionHeader := some 100, now := 500, stripe := .raisesError }

/-- Witness for claim C5 at a concrete store and request. -/
theorem checkout_compensates_on_session_failure_witness :
    (checkoutHandler c5State c5Req).1.inventory = c5State.inventory ∧
    (checkoutHandler c5State c5Req).1.reservations = c5State.reservations ∧
    ((checkoutHandler c5State c5Req).1.reservations.filter
      fun r => decide (r.cart_id = 0)) = [] :=
  checkout_compensates_on_session_failure c5State c5Req 100
    { id := 0, session_id := 100, status := .active, expires_at := 1000 }
    (checkoutHandler c5State c5Req).1 (checkoutHandler c5State c5Req).2
    rfl (by decide) (by decide) (by decide) rfl (Or.inl (by decide))

/-- Store for the C6 counterexample and witness: a pending order correlated
to session 500, a live reservation of 2 units, and an active cart. -/
def c6State : DBState :=
  { variants := [], inventory := [{ variant_id := 1, stock_quantity := 3 }],
    reservations := [{ id := 0, cart_id := 0, variant_id := 1, quantity := 2, expires_at := 10 }],
    carts := [{ id := 0, session_id := 100, status := .active, expires_at := 10 }],
    cartItems := [],
    orders := [{ id := 0, cart_id := 0, stripe_checkout_session_id := some 500,
                 stripe_payment_intent_id := none, status := .pending }],
    orderItems := [], payments := [], nextId := 1 }

/-- Claim C6 counterexample: an Expiration notification whose session
metadata carries no cart_id.  An order matching the session id exists, yet
the handler returns early after recording a BadRequest: the order stays
pending, the cart's reservation row survives, and the cart is not
abandoned — contradicting the claim's in-every-case clause. -/
theorem handleCheckoutExpired_missing_metadata_counterexample :
    (∃ o ∈ c6State.orders, o.stripe_checkout_session_id = some 500 ∧
      o.status = OrderStatus.pending) ∧
    handleCheckoutExpired c6State { id := 500, cart_id := none, payment_intent := none } =
      (c6State, HandlerOutcome.earlyReturn EventErr.badRequestMissingCartMeta) ∧
    (∀ o ∈ (handleCheckoutExpired c6State
        { id := 500, cart_id := none, payment_intent := none }).1.orders,
      ¬ o.status = OrderStatus.failed) ∧
    ¬ ((handleCheckoutExpired c6State
        { id := 500, cart_id := none, payment_intent := none }).1.reservations.filter
      fun r => decide (r.cart_id = 0)) = [] ∧
    ∀ c ∈ (handleCheckoutExpired c6State
        { id := 500, cart_id := none, payment_intent := none }).1.carts,
      ¬ c.status = CartStatus.abandoned := by decide

/-- Claim C6 as amended: for every Expiration notification whose session
metadata carries a cart_id (and with the store satisfying the unique index
on orders.stripe_checkout_session_id), every order matching the session id
ends up failed, the metadata cart's reservations are released with stock
restored per reservation quantity, the cart rows with that id are
abandoned, and the handler completes. -/
theorem handleCheckoutExpired_releases_and_abandons (s : DBState)
    (sess : StripeSession) (cid : CartId) (hcid : sess.cart_id = some cid)
    (hU : ∀ o1 ∈ s.orders, ∀ o2 ∈ s.orders, ∀ x : SessionId,
      o1.stripe_checkout_session_id = some x → o2.stripe_checkout_session_id = some x →
      o1.id = o2.id) :
    (∀ o ∈ (handleCheckoutExpired s sess).1.orders,
      o.stripe_checkout_session_id = some sess.id → o.status = OrderStatus.failed) ∧
    ((handleCheckoutExpired s sess).1.reservations.filter
      fun r => decide (r.cart_id = cid)) = [] ∧
    (handleCheckoutExpired s sess).1.inventory =
      incAll (s.reservations.filter fun r => decide (r.cart_id = cid)) s.inventory ∧
    (∀ c ∈ (handleCheckoutExpired s sess).1.carts,
      c.id = cid → c.status = CartStatus.abandoned) ∧
    (handleCheckoutExpired s sess).2 = HandlerOutcome.completedOk := by
  unfold handleCheckoutExpired
  rw [hcid]
  dsimp only
  have hRes := restoreStock_spec (markOrderFailed s sess.id) cid
  have hMOF := markOrderFailed_frame s sess.id
  refine ⟨?_, ?_, ?_, ?_, rfl⟩
  · intro o ho hsess2
    have hcartsOrders : (markCartAbandoned
        (restoreStockFromReservations (markOrderFailed s sess.id) cid) cid).orders =
        (markOrderFailed s sess.id).orders :=
      (markCartAbandoned_frame _ _).2.2.trans hRes.2.2.2.2.2.1
    rw [hcartsOrders] at ho
    exact markOrderFailed_status s sess.id hU o ho hsess2
  · have h1 : (markCartAbandoned
        (restoreStockFromReservations (markOrderFailed s sess.id) cid) cid).reservations =
        (restoreStockFromReservations (markOrderFailed s sess.id) cid).reservations :=
      (markCartAbandoned_frame _ _).2.1
    rw [h1]
    rw [hMOF.2.1] at hRes
    exact hRes.2.1
  · have h1 : (markCartAbandoned
        (restoreStockFromReservations (markOrderFailed s sess.id) cid) cid).inventory =
        (restoreStockFromReservations (markOrderFailed s sess.id) cid).inventory :=
      (markCartAbandoned_frame _ _).1
    rw [h1]
    rw [hMOF.2.1, hMOF.1] at hRes
    exact hRes.1
  · exact markCartAbandoned_status _ _

/-- Witness for claim C6 at the concrete store, with the cart_id present in
the metadata. -/
theorem handleCheckoutExpired_releases_and_abandons_witness :
    ((handleCheckoutExpired c6State
        { id := 500, cart_id := some 0, payment_intent := none }).1.reservations.filter
      fun r => decide (r.cart_id = 0)) = [] ∧
    (handleCheckoutExpired c6State
        { id := 500, cart_id := some 0, payment_intent := none }).1.inventory =
      incAll (c6State.reservations.filter fun r => decide (r.cart_id = 0))
        c6State.inventory ∧
    (handleCheckoutExpired c6State
        { id := 500, cart_id := some 0, payment_intent := none }).2 =
      HandlerOutcome.completedOk := by
  have h := handleCheckoutExpired_releases_and_abandons c6State
    { id := 500, cart_id := some 0, payment_intent := none } 0 rfl (by decide)
  exact ⟨h.2.1, h.2.2.1, h.2.2.2.2⟩

/-- Store for the C7 counterexample: no orders at all. -/
def c7State : DBState :=
  { variants := [], inventory := [{ variant_id := 1, stock_quantity := 4 }],
    reservations := [], carts := [], cartItems := [], orders := [], orderItems := [],
    payments := [], nextId := 0 }

/-- Claim C7 counterexample: a Completion notification whose session id
matches no order but whose metadata carries no cart_id is answered with the
BadRequest event error, not the claimed NotFound (the state is still left
unchanged). -/
theorem handleCheckoutCompleted_missing_metadata_counterexample :
    findOrderBySession c7State 800 = none ∧
    handleCheckoutCompleted c7State { id := 800, cart_id := none, payment_intent := none } =
      (c7State, HandlerOutcome.earlyReturn EventErr.badRequestMissingCartMeta) ∧
    ¬ (handleCheckoutCompleted c7State
        { id := 800, cart_id := none, payment_intent := none }).2 =
      HandlerOutcome.earlyReturn EventErr.notFoundOrder := by decide

/-- Claim C7 as amended: for every Completion notification that carries a
cart_id in its metadata and whose session id matches no order, the handler
reports the NotFound event error and returns the store unchanged (no stock,
order, order-item, payment or reservation effect). -/
theorem handleCheckoutCompleted_unknown_session_no_effect (s : DBState)
    (sess : StripeSession) (cid : CartId) (hcid : sess.cart_id = some cid)
    (hord : findOrderBySession s sess.id = none) :
    handleCheckoutCompleted s sess =
      (s, HandlerOutcome.earlyReturn EventErr.notFoundOrder) := by
  unfold handleCheckoutCompleted
  rw [hcid]
  dsimp only
  rw [hord]

/-- Store for the C7 witness: a cart exists but no order does. -/
def c7WitState : DBState :=
  { variants := [], inventory := [], reservations := [],
    carts := [{ id := 0, session_id := 100, status := .active, expires_at := 10 }],
    cartItems := [], orders := [], orderItems := [], payments := [], nextId := 0 }

/-- Witness for the amended claim C7 at a concrete store. -/
theorem handleCheckoutCompleted_unknown_session_no_effect_witness :
    handleCheckoutCompleted c7WitState
        { id := 800, cart_id := some 0, payment_intent := none } =
      (c7WitState, HandlerOutcome.earlyReturn EventErr.notFoundOrder) :=
  handleCheckoutCompleted_unknown_session_no_effect c7WitState
    { id := 800, cart_id := some 0, payment_intent := none } 0 rfl (by decide)

/-- Claim C8: on a store whose inventory row for the unit exists, the PATCH
inventory handler rejects a negative adjust whose magnitude exceeds the
current stock with the BadRequest result and the store unchanged (the
conditional update guarded by stock >= |adjust| matched no row), while a
negative adjust within stock, a positive adjust, and an absolute
non-negative set succeed and leave the expected stock value. -/
theorem updateInventory_patch_spec (s : DBState) (vid : VariantId) (row : InvRow)
    (hfind : s.inventory.find? (fun r => decide (r.variant_id = vid)) = some row)
    (hN : (s.inventory.map InvRow.variant_id).Nodup) :
    (∀ d : Int, d < 0 → row.stock_quantity < -d →
      updateInventory s vid { stock_quantity := none, adjust := some d } =
        (s, UpdateInventoryResult.insufficientStockErr)) ∧
    (∀ d : Int, d < 0 → -d ≤ row.stock_quantity →
      (updateInventory s vid { stock_quantity := none, adjust := some d }).2 =
        UpdateInventoryResult.ok ∧
      stockLookup (updateInventory s vid
        { stock_quantity := none, adjust := some d }).1.inventory vid =
        row.stock_quantity + d) ∧
    (∀ d : Int, 0 < d →
      (updateInventory s vid { stock_quantity := none, adjust := some d }).2 =
        UpdateInventoryResult.ok ∧
      stockLookup (updateInventory s vid
        { stock_quantity := none, adjust := some d }).1.inventory vid =
        row.stock_quantity + d) ∧
    ∀ q : Int, 0 ≤ q →
      (updateInventory s vid { stock_quantity := some q, adjust := none }).2 =
        UpdateInventoryResult.ok ∧
      stockLookup (updateInventory s vid
        { stock_quantity := some q, adjust := none }).1.inventory vid = q := by
  have hmem := List.mem_of_find?_eq_some hfind
  have hrowv : row.variant_id = vid := by simpa using List.find?_some hfind
  refine ⟨?_, ?_, ?_, ?_⟩
  · intro d hd hlt
    unfold updateInventory
    rw [hfind]
    dsimp only
    have hg : ¬ ∃ r ∈ s.inventory, r.variant_id = vid ∧ -d ≤ r.stock_quantity := by
      rintro ⟨r, hr, hrv, hrq⟩
      have heq : r = row := List.inj_on_of_nodup_map hN hr hmem (hrv.trans hrowv.symm)
      rw [heq] at hrq
      omega
    rw [if_pos hd, if_neg hg]
  · intro d hd hge
    unfold updateInventory
    rw [hfind]
    dsimp only
    have hg : ∃ r ∈ s.inventory, r.variant_id = vid ∧ -d ≤ r.stock_quantity :=
      ⟨row, hmem, hrowv, hge⟩
    rw [if_pos hd, if_pos hg]
    refine ⟨rfl, ?_⟩
    have hid : ∀ r : InvRow,
        ((if r.variant_id = vid ∧ -d ≤ r.stock_quantity then
          { r with stock_quantity := r.stock_quantity + d } else r) : InvRow).variant_id =
          r.variant_id := fun r => by split <;> rfl
    dsimp only
    unfold stockLookup
    rw [find?_variant_map s.inventory vid _ hid, hfind]
    simp [hrowv, hge]
  · intro d hd
    unfold updateInventory
    rw [hfind]
    dsimp only
    rw [if_neg (by omega : ¬ d < 0)]
    refine ⟨rfl, ?_⟩
    have hid : ∀ r : InvRow,
        ((if r.variant_id = vid then
          { r with stock_quantity := r.stock_quantity + d } else r) : InvRow).variant_id =
          r.variant_id := fun r => by split <;> rfl
    dsimp only
    unfold incrementStock stockLookup
    rw [find?_variant_map s.inventory vid _ hid, hfind]
    simp [hrowv]
  · intro q hq
    unfold updateInventory
    rw [hfind]
    dsimp only
    refine ⟨rfl, ?_⟩
    have hid : ∀ r : InvRow,
        ((if r.variant_id = vid then { r with stock_quantity := q } else r) :
          InvRow).variant_id = r.variant_id := fun r => by split <;> rfl
    unfold stockLookup
    rw [find?_variant_map s.inventory vid _ hid, hfind]
    simp [hrowv]

/-- Store for the C8 witness: one unit with stock 5. -/
def c8State : DBState :=
  { variants := [], inventory := [{ variant_id := 1, stock_quantity := 5 }],
    reservations := [], carts := [], cartItems := [], orders := [], orderItems := [],
    payments := [], nextId := 0 }

/-- Witness for claim C8 at stock 5: adjust by -7 is rejected with the store
unchanged, adjust by -3 leaves 2, adjust by +4 leaves 9, and an absolute set
to 0 leaves 0. -/
theorem updateInventory_patch_spec_witness :
    updateInventory c8State 1 { stock_quantity := none, adjust := some (-7) } =
      (c8State, UpdateInventoryResult.insufficientStockErr) ∧
    (updateInventory c8State 1 { stock_quantity := none, adjust := some (-3) }).2 =
      UpdateInventoryResult.ok ∧
    stockLookup (updateInventory c8State 1
      { stock_quantity := none, adjust := some (-3) }).1.inventory 1 = 2 ∧
    stockLookup (updateInventory c8State 1
      { stock_quantity := none, adjust := some 4 }).1.inventory 1 = 9 ∧
    stockLookup (updateInventory c8State 1
      { stock_quantity := some 0, adjust := none }).1.inventory 1 = 0 := by
  have h := updateInventory_patch_spec c8State 1 { variant_id := 1, stock_quantity := 5 }
    (by decide) (by decide)
  refine ⟨h.1 (-7) (by decide) (by decide), (h.2.1 (-3) (by decide) (by decide)).1,
    (h.2.1 (-3) (by decide) (by decide)).2.trans (by decide),
    (h.2.2.1 4 (by decide)).2.trans (by decide),
    (h.2.2.2 0 (by decide)).2⟩

/-- Claim C9: restoring a cart's reservations is idempotent — the second run
finds no reservation rows for the cart and changes nothing — and on a cart
with no reservation rows the call is a no-op. -/
theorem restoreStock_idempotent (s : DBState) (cid : CartId) :
    restoreStockFromReservations (restoreStockFromReservations s cid) cid =
      restoreStockFromReservations s cid ∧
    ((s.reservations.filter fun r => decide (r.cart_id = cid)) = [] →
      restoreStockFromReservations s cid = s) :=
  ⟨restoreStock_noop _ _ ((restoreStock_spec s cid).2.1),
    fun h => restoreStock_noop s cid h⟩

/-- Store for the C9 witness: one live reservation of 2 units for cart 0. -/
def c9State : DBState :=
  { variants := [], inventory := [{ variant_id := 1, stock_quantity := 3 }],
    reservations := [{ id := 0, cart_id := 0, variant_id := 1, quantity := 2, expires_at := 10 }],
    carts := [], cartItems := [], orders := [], orderItems := [], payments := [], nextId := 1 }

/-- Store for the C9 witness with no reservations. -/
def c9EmptyState : DBState :=
  { variants := [], inventory := [{ variant_id := 1, stock_quantity := 3 }],
    reservations := [], carts := [], cartItems := [], orders := [], orderItems := [],
    payments := [], nextId := 1 }

/-- Witness for claim C9 at concrete stores. -/
theorem restoreStock_idempotent_witness :
    restoreStockFromReservations (restoreStockFromReservations c9State 0) 0 =
      restoreStockFromReservations c9State 0 ∧
    restoreStockFromReservations c9EmptyState 0 = c9EmptyState :=
  ⟨(restoreStock_idempotent c9State 0).1,
    (restoreStock_idempotent c9EmptyState 0).2 (by decide)⟩

/-- Claim C10 as amended: every webhook request that passes the signature
checks (header present, secret configured, signature valid) and whose event
conflicts with no existing payments row on the table's unique indexes — in
particular every first delivery — is answered 200 with received set to
true, whatever the event carries: the settlement handlers record their
internal failures (missing cart_id metadata, order not found, cart not
found) in the event bag and return normally, and unknown event types are
recorded as unhandled.  The foreign-key hypothesis rules out the
variant-join crash that the store cannot exhibit anyway. -/
theorem webhook_valid_signature_returns_200 (s : DBState) (req : WebhookRequest)
    (hp : req.signaturePresent = true) (hc : req.secretConfigured = true)
    (hv : req.signatureValid = true)
    (hfk : ∀ i ∈ s.cartItems, (findVariant s i.variant_id).isSome = true)
    (hnp : NoPaymentConflict s req.eventKind) :
    (webhookPost s req).2 = WebhookResponse.okReceived := by
  unfold webhookPost
  rw [hp, hc, hv]
  have hne : ¬ (true = false) := by decide
  rw [if_neg hne, if_neg hne, if_neg hne]
  cases he : req.eventKind with
  | checkoutSessionCompleted sess =>
    dsimp only
    rw [he] at hnp
    rcases hh : handleCheckoutCompleted s sess with ⟨s1, o⟩
    have hnc := handleCheckoutCompleted_no_crash s sess hfk
    have hnv := handleCheckoutCompleted_no_unique_violation s sess hnp
    rw [hh] at hnc hnv
    cases o with
    | completedOk => rfl
    | earlyReturn e => rfl
    | crashedVariantJoinMissing => simp at hnc
    | raisedPaymentUniqueViolation => simp at hnv
  | checkoutSessionExpired sess => dsimp only
  | otherEvent => rfl

/-- Store for the C10 witness: a full settlement scenario (variant, cart,
item, pending order, reservation). -/
def c10State : DBState :=
  { variants := [{ id := 1, price := 10 }],
    inventory := [{ variant_id := 1, stock_quantity := 5 }],
    reservations := [{ id := 0, cart_id := 0, variant_id := 1, quantity := 2, expires_at := 99 }],
    carts := [{ id := 0, session_id := 100, status := .ordered, expires_at := 99 }],
    cartItems := [{ cart_id := 0, product_id := 7, variant_id := 1, quantity := 2 }],
    orders := [{ id := 0, cart_id := 0, stripe_checkout_session_id := some 500,
                 stripe_payment_intent_id := none, status := .pending }],
    orderItems := [], payments := [], nextId := 1 }

/-- Verified webhook request for the C10 witness. -/
def c10Req : WebhookRequest :=
  { signaturePresent := true, secretConfigured := true, signatureValid := true,
    eventKind := .checkoutSessionCompleted
      { id := 500, cart_id := some 0, payment_intent := some 900 } }

/-- Witness for the amended claim C10 at a concrete store and request
(a first delivery: no payments row exists yet). -/
theorem webhook_valid_signature_returns_200_witness :
    (webhookPost c10State c10Req).2 = WebhookResponse.okReceived :=
  webhook_valid_signature_returns_200 c10State c10Req rfl rfl rfl (by decide) (by decide)

/-- Claim C10 counterexample: the signature checks pass on c10Req both
times, and the first delivery of the completed-session event is answered
200, but redelivering the same event to the resulting store makes the
payment insert violate the payments unique index; the exception reaches the
error middleware and the endpoint answers 500, not 200 — refuting the
claim's universal over every signature-verified request. -/
theorem webhook_duplicate_delivery_returns_500_counterexample :
    c10Req.signaturePresent = true ∧ c10Req.secretConfigured = true ∧
    c10Req.signatureValid = true ∧
    (webhookPost c10State c10Req).2 = WebhookResponse.okReceived ∧
    (webhookPost (webhookPost c10State c10Req).1 c10Req).2 =
      WebhookResponse.serverError ∧
    ¬ (webhookPost (webhookPost c10State c10Req).1 c10Req).2 =
      WebhookResponse.okReceived := by decide
